import Mathlib

/-!
# MindTrace client — verification of the alert hook, profile settings, reset form and overlay

Shallow embedding of the stateful parts of the MindTrace client:

* `useSOSAlerts` (src/client/src/hooks/useSOSAlerts.js): alert state, polling
  completions, trigger / acknowledge / resolve / cancel / clear-history /
  update-location operations. Each operation is modelled as a pure function
  from the server's response (an `Except`) and the hook state to an `OpResult`
  recording the new state, the HTTP requests issued, whether the returned
  promise rejects, and how many geocoding calls were made.
* `ProfileSettings` (src/client/src/pages/ProfileSettings.jsx): the
  change-tracking effect and `handleSave`.
* `ResetPassword` (src/client/src/App.jsx): `handleSubmit` validation.
* `FaceRecognition` (src respectively its recognition overlay): confidence
  formatting and colour selection; JS numbers are modelled as exact rationals.

JavaScript truthiness coercions (`x || y`) are embedded explicitly where the
source relies on them.
-/

namespace MindTrace

/-- Location payload: latitude, longitude, optional address string
(`location` objects in useSOSAlerts.js). -/
structure Location where
  lat : Int
  lng : Int
  address : Option String
deriving DecidableEq

/-- An alert object as returned by the server (the fields the client reads). -/
structure Alert where
  id : Nat
  status : String
  is_test : Bool
  location : Option Location
deriving DecidableEq

/-- A react-hot-toast notification: `toast.success` or `toast.error`. -/
inductive Toast where
  | success (msg : String)
  | error (msg : String)
deriving DecidableEq

/-- The state held by the `useSOSAlerts` hook:
`activeAlert`, `alertHistory`, `isLoading`, `isTestMode`, plus the stream of
toasts it has emitted (modelling the user-visible notifications). -/
structure HookState where
  activeAlert : Option Alert
  alertHistory : List Alert
  isLoading : Bool
  isTestMode : Bool
  toasts : List Toast
deriving DecidableEq

/-- The `options` argument of `triggerAlert`; every field may be absent. -/
structure TriggerOptions where
  isTest : Option Bool
  location : Option Location
  batteryLevel : Option Int
  connectionStatus : Option String
deriving DecidableEq

/-- The `alertData` payload built by `triggerAlert` and sent to
`sosApi.createAlert`. -/
structure AlertData where
  is_test : Bool
  location : Option Location
  battery_level : Option Int
  connection_status : String
deriving DecidableEq

/-- Body of a `sosApi.updateAlert` call (only the fields actually sent). -/
structure UpdateBody where
  status : Option String
  resolved_by : Option String
  notes : Option String
  location : Option Location
deriving DecidableEq

/-- The HTTP requests the hook can issue through `sosApi`. -/
inductive ApiRequest where
  | getActiveAlert
  | getAlerts (limit : Nat) (status : String)
  | createAlert (data : AlertData)
  | updateAlert (id : Nat) (body : UpdateBody)
  | clearHistory
deriving DecidableEq

/-- JS truthiness of an optional string: `undefined`, `null` and `""` are
falsy (used for `!alertData.location.address`). -/
def jsFalsyStr : Option String → Bool
  | none => true
  | some s => s = ""

/-- `options.batteryLevel || null`: absent or `0` becomes `null`. -/
def coerceBatteryLevel : Option Int → Option Int
  | none => none
  | some n => if n = 0 then none else some n

/-- `options.connectionStatus || 'online'`: absent or `""` becomes
`"online"`. -/
def coerceConnectionStatus : Option String → String
  | none => "online"
  | some s => if s = "" then "online" else s

/-- The `alertData` object constructed at the top of `triggerAlert`:
`{ is_test: options.isTest || false, location: options.location || null,
battery_level: options.batteryLevel || null,
connection_status: options.connectionStatus || 'online' }`. -/
def buildAlertData (o : TriggerOptions) : AlertData :=
  { is_test := o.isTest.getD false
    location := o.location
    battery_level := coerceBatteryLevel o.batteryLevel
    connection_status := coerceConnectionStatus o.connectionStatus }

/-- Append a toast to the state's notification stream. -/
def addToast (t : Toast) (st : HookState) : HookState :=
  { st with toasts := st.toasts ++ [t] }

/-- `fetchActiveAlert`: on a response with data, adopt it as the active alert
and set `isTestMode` from `data.is_test || false`; on a null response clear
both; a request error is only logged (state unchanged). -/
def fetchActiveAlert (resp : Except Unit (Option Alert)) (st : HookState) :
    HookState :=
  match resp with
  | Except.ok (some a) => { st with activeAlert := some a, isTestMode := a.is_test }
  | Except.ok none => { st with activeAlert := none, isTestMode := false }
  | Except.error _ => st

/-- `fetchAlertHistory`: `setAlertHistory(response.data || [])`; a request
error is only logged. -/
def fetchAlertHistoryStep (resp : Except Unit (Option (List Alert)))
    (st : HookState) : HookState :=
  match resp with
  | Except.ok d => { st with alertHistory := d.getD [] }
  | Except.error _ => st

/-- Result of running one hook operation: the state afterwards, the requests
issued, whether the operation's promise rejects, and the number of
`reverseGeocode` calls made. -/
structure OpResult where
  state : HookState
  requests : List ApiRequest
  rejects : Bool
  geoCalls : Nat
deriving DecidableEq

/-- The geocoding step of `triggerAlert`: when a location is present whose
address is falsy, call `reverseGeocode` once; on success attach the address,
on failure keep the payload unchanged (the error is only warned). Returns the
payload together with the number of geocoding calls. -/
def enrichedData (geo : Except Unit String) (d : AlertData) : AlertData × Nat :=
  match d.location with
  | some loc =>
      if jsFalsyStr loc.address then
        match geo with
        | Except.ok addr => ({ d with location := some { loc with address := some addr } }, 1)
        | Except.error _ => (d, 1)
      else (d, 0)
  | none => (d, 0)

/-- The success continuation of `triggerAlert`: adopt the created alert, set
test mode from it, and toast. -/
def adoptTriggered (a : Alert) (st : HookState) : HookState :=
  addToast
    (if a.is_test then Toast.success "Test SOS alert created"
     else Toast.success "SOS alert triggered!")
    { st with activeAlert := some a, isTestMode := a.is_test }

/-- `triggerAlert(options)`: build the payload, maybe geocode, send
`createAlert`; on success adopt the server's alert and toast success; on
failure toast an error and rethrow (the promise rejects). -/
def triggerAlert (geo : Except Unit String) (resp : Except Unit Alert)
    (st : HookState) (o : TriggerOptions) : OpResult :=
  let p := enrichedData geo (buildAlertData o)
  match resp with
  | Except.ok a =>
      { state := adoptTriggered a st
        requests := [ApiRequest.createAlert p.1]
        rejects := false
        geoCalls := p.2 }
  | Except.error _ =>
      { state := addToast (Toast.error "Failed to trigger SOS alert") st
        requests := [ApiRequest.createAlert p.1]
        rejects := true
        geoCalls := p.2 }

/-- `acknowledgeAlert(alertId)`: send a status update; on success replace the
active alert with the server's response and toast success; on failure toast an
error and swallow the exception (the promise resolves). -/
def acknowledgeAlert (alertId : Nat) (resp : Except Unit Alert)
    (st : HookState) : OpResult :=
  match resp with
  | Except.ok a =>
      { state := addToast (Toast.success "Alert acknowledged")
          { st with activeAlert := some a }
        requests := [ApiRequest.updateAlert alertId
          { status := some "acknowledged", resolved_by := none, notes := none, location := none }]
        rejects := false
        geoCalls := 0 }
  | Except.error _ =>
      { state := addToast (Toast.error "Failed to acknowledge alert") st
        requests := [ApiRequest.updateAlert alertId
          { status := some "acknowledged", resolved_by := none, notes := none, location := none }]
        rejects := false
        geoCalls := 0 }

/-- The shared success continuation of `resolveAlert` and `cancelAlert`:
clear the active slot and test mode, then refetch the history. -/
def clearActiveAndRefetch (hist : Except Unit (Option (List Alert)))
    (st : HookState) : HookState :=
  fetchAlertHistoryStep hist { st with activeAlert := none, isTestMode := false }

/-- `resolveAlert(alertId, resolvedBy = 'Caregiver', notes = '')`: send a
resolve update; on success clear the active slot, refetch history (the
`getAlerts` request) and toast success; on failure toast an error and swallow
the exception. -/
def resolveAlert (alertId : Nat) (resolvedBy notes : String)
    (updateResp : Except Unit Unit) (hist : Except Unit (Option (List Alert)))
    (st : HookState) : OpResult :=
  match updateResp with
  | Except.ok _ =>
      { state := addToast (Toast.success "Alert resolved successfully")
          (clearActiveAndRefetch hist st)
        requests := [ApiRequest.updateAlert alertId
            { status := some "resolved", resolved_by := some resolvedBy,
              notes := some notes, location := none },
          ApiRequest.getAlerts 50 "resolved"]
        rejects := false
        geoCalls := 0 }
  | Except.error _ =>
      { state := addToast (Toast.error "Failed to resolve alert") st
        requests := [ApiRequest.updateAlert alertId
          { status := some "resolved", resolved_by := some resolvedBy,
            notes := some notes, location := none }]
        rejects := false
        geoCalls := 0 }

/-- `cancelAlert()`: only acts when an active alert is held; sends a resolve
update with `resolved_by: 'System'` and `notes: 'Cancelled'`; on success
clears the slot and refetches history; on failure the error is only logged
(no toast) and swallowed. -/
def cancelAlert (updateResp : Except Unit Unit)
    (hist : Except Unit (Option (List Alert))) (st : HookState) : OpResult :=
  match st.activeAlert with
  | none => { state := st, requests := [], rejects := false, geoCalls := 0 }
  | some a =>
      match updateResp with
      | Except.ok _ =>
          { state := clearActiveAndRefetch hist st
            requests := [ApiRequest.updateAlert a.id
                { status := some "resolved", resolved_by := some "System",
                  notes := some "Cancelled", location := none },
              ApiRequest.getAlerts 50 "resolved"]
            rejects := false
            geoCalls := 0 }
      | Except.error _ =>
          { state := st
            requests := [ApiRequest.updateAlert a.id
              { status := some "resolved", resolved_by := some "System",
                notes := some "Cancelled", location := none }]
            rejects := false
            geoCalls := 0 }

/-- `clearHistory()`: on success empty the history and toast success; on
failure toast an error and swallow the exception. -/
def clearHistory (resp : Except Unit Unit) (st : HookState) : OpResult :=
  match resp with
  | Except.ok _ =>
      { state := addToast (Toast.success "Alert history cleared")
          { st with alertHistory := [] }
        requests := [ApiRequest.clearHistory]
        rejects := false
        geoCalls := 0 }
  | Except.error _ =>
      { state := addToast (Toast.error "Failed to clear history") st
        requests := [ApiRequest.clearHistory]
        rejects := false
        geoCalls := 0 }

/-- `updateAlertLocation(newLocation)`: only acts when an active alert is
held; on success replace the active alert with the server's response; on
failure the error is only logged (no toast) and swallowed. -/
def updateAlertLocation (newLoc : Location) (resp : Except Unit Alert)
    (st : HookState) : OpResult :=
  match st.activeAlert with
  | none => { state := st, requests := [], rejects := false, geoCalls := 0 }
  | some a =>
      match resp with
      | Except.ok b =>
          { state := { st with activeAlert := some b }
            requests := [ApiRequest.updateAlert a.id
              { status := none, resolved_by := none, notes := none, location := some newLoc }]
            rejects := false
            geoCalls := 0 }
      | Except.error _ =>
          { state := st
            requests := [ApiRequest.updateAlert a.id
              { status := none, resolved_by := none, notes := none, location := some newLoc }]
            rejects := false
            geoCalls := 0 }

/-! ## Polling completions and last-response-wins (useSOSAlerts) -/

/-- A server response whose completion handler runs against the hook state:
a poll tick's `getActiveAlert` data, or the success continuation of a
user-triggered mutation. -/
inductive Completion where
  | poll (data : Option Alert)
  | ackOk (a : Alert)
  | triggerOk (a : Alert)
  | resolveOk (hist : Except Unit (Option (List Alert)))
  | cancelOk (hist : Except Unit (Option (List Alert)))
  | locUpdateOk (a : Alert)

/-- The alert carried by a server response: what the active slot should hold
after that response's handler runs. -/
def carriedAlert : Completion → Option Alert
  | Completion.poll d => d
  | Completion.ackOk a => some a
  | Completion.triggerOk a => some a
  | Completion.resolveOk _ => none
  | Completion.cancelOk _ => none
  | Completion.locUpdateOk a => some a

/-- Run one response's completion handler, exactly as the source writes each
continuation after its `await`: poll completions run `fetchActiveAlert`,
acknowledge completions run `acknowledgeAlert`'s success branch, and so on. -/
def applyCompletion (st : HookState) : Completion → HookState
  | Completion.poll d => fetchActiveAlert (Except.ok d) st
  | Completion.ackOk a => (acknowledgeAlert a.id (Except.ok a) st).state
  | Completion.triggerOk a => adoptTriggered a st
  | Completion.resolveOk h =>
      addToast (Toast.success "Alert resolved successfully") (clearActiveAndRefetch h st)
  | Completion.cancelOk h => clearActiveAndRefetch h st
  | Completion.locUpdateOk a => { st with activeAlert := some a }

/-! ## Mount effect and unmount cleanup (useSOSAlerts) -/

/-- The hook state together with its mount status and whether the 3-second
polling interval is installed (`pollIntervalRef.current`). -/
structure MountedHook where
  mounted : Bool
  pollTimer : Bool
  hook : HookState
deriving DecidableEq

/-- The mount effect: install the polling interval. -/
def mountEffect (st : MountedHook) : MountedHook :=
  { st with mounted := true, pollTimer := true }

/-- The effect's cleanup on unmount: `clearInterval` when the interval ref is
set. The component is no longer mounted afterwards. -/
def unmountCleanup (st : MountedHook) : MountedHook :=
  { st with mounted := false
            pollTimer := if st.pollTimer then false else st.pollTimer }

/-- The continuation of a `getActiveAlert` request that resolves after the
component has unmounted. `fetchActiveAlert` contains no unmounted flag and no
abort signal, so the handler applies its state update regardless of
`mounted`. -/
def lateFetchCompletion (d : Option Alert) (st : MountedHook) : MountedHook :=
  { st with hook := fetchActiveAlert (Except.ok d) st.hook }

/-! ## ProfileSettings (src/client/src/pages/ProfileSettings.jsx) -/

/-- The tracked profile fields compared by the change-tracking effect. -/
structure Tracked where
  full_name : String
  email : String
deriving DecidableEq

/-- A `message` banner: its `type` (`"success"` / `"error"` / `""`) and
text. -/
structure Msg where
  type : String
  text : String
deriving DecidableEq

/-- The ProfileSettings state relevant to dirty tracking and saving. -/
structure ProfileState where
  profile : Tracked
  originalProfile : Tracked
  loading : Bool
  hasUnsavedChanges : Bool
  message : Msg
deriving DecidableEq

/-- The change-tracking effect: when not loading, recompute
`hasUnsavedChanges` as the shallow comparison of the working copy against the
original copy on `full_name` and `email`. (The source also guards on
`originalProfile.full_name !== undefined`, which always holds: the field is
initialised to `''`.) -/
def trackChangesEffect (st : ProfileState) : ProfileState :=
  if st.loading then st
  else
    { st with hasUnsavedChanges :=
        st.profile.full_name ≠ st.originalProfile.full_name ∨
        st.profile.email ≠ st.originalProfile.email }

/-- `handleSave`: send the tracked fields; on success set the original copy to
the working copy's tracked fields, clear the dirty flag and show a success
banner; on failure only show an error banner (server detail when present). -/
def handleSave (resp : Except (Option String) Unit) (st : ProfileState) :
    ProfileState :=
  match resp with
  | Except.ok _ =>
      { st with originalProfile := st.profile
                hasUnsavedChanges := false
                message := { type := "success", text := "Profile updated successfully!" } }
  | Except.error detail =>
      { st with message :=
          { type := "error", text := detail.getD "Failed to update profile" } }

/-! ## ResetPassword (src/client/src/App.jsx) -/

/-- Outcome of the reset form's `handleSubmit`: rejected before any network
call with a toast message, or a `POST /auth/reset-password` request with the
given body. -/
inductive SubmitOutcome where
  | blocked (msg : String)
  | request (token newPassword : String)
deriving DecidableEq

/-- `ResetPassword.handleSubmit`: mismatched confirmation is rejected first,
then a matching password shorter than 6 characters; otherwise the request is
sent with `{ token, new_password: password }`. -/
def handleSubmit (password confirmPassword token : String) : SubmitOutcome :=
  if password ≠ confirmPassword then SubmitOutcome.blocked "Passwords do not match"
  else if password.length < 6 then
    SubmitOutcome.blocked "Password must be at least 6 characters"
  else SubmitOutcome.request token password

/-! ## FaceRecognition overlay

JS numbers are modelled as exact rationals; `x.toFixed(1)` on the
non-negative percentages involved rounds to the nearest tenth. -/

/-- The overlay's confidence text: `(confidence * 100).toFixed(1) + "%"`,
for a confidence in `[0, 1]`. -/
def confidenceDisplay (c : ℚ) : String :=
  let t : ℤ := round (c * 100 * 10)
  toString (t / 10) ++ "." ++ toString (t % 10) ++ "%"

/-- The overlay's confidence colour class:
`confidence > 0.6 ? 'text-green-400' : 'text-yellow-400'`. -/
def confidenceColor (c : ℚ) : String :=
  if c > 6 / 10 then "text-green-400" else "text-yellow-400"

/-! ## Example values used by witnesses and counterexamples -/

/-- A concrete location without an address. -/
def exLocation : Location := { lat := 51, lng := 0, address := none }

/-- A concrete active alert. -/
def exAlert : Alert :=
  { id := 1, status := "active", is_test := false, location := some exLocation }

/-- A concrete hook state holding an active alert. -/
def exSt : HookState :=
  { activeAlert := some exAlert, alertHistory := [], isLoading := false,
    isTestMode := false, toasts := [] }

/-- A concrete hook state holding no active alert. -/
def exIdleSt : HookState :=
  { activeAlert := none, alertHistory := [], isLoading := false,
    isTestMode := false, toasts := [] }

/-- A mounted component with the polling timer installed and no active
alert. -/
def exMounted : MountedHook :=
  { mounted := true, pollTimer := true, hook := exIdleSt }

/-- A concrete trigger-options value exercising every falsy coercion. -/
def exOpts : TriggerOptions :=
  { isTest := none, location := none, batteryLevel := some 0, connectionStatus := none }

/-- A concrete ProfileSettings state whose working copy differs from the
original in the tracked `full_name` field. -/
def exProfileState : ProfileState :=
  { profile := { full_name := "Ada", email := "ada@mindtrace.app" }
    originalProfile := { full_name := "Ada L", email := "ada@mindtrace.app" }
    loading := false
    hasUnsavedChanges := false
    message := { type := "", text := "" } }

/-! ## Theorems -/

/-- Each response's completion handler overwrites the active slot with
exactly the alert the response carries, with no merge against the previous
state. -/
theorem applyCompletion_activeAlert (st : HookState) (c : Completion) :
    (applyCompletion st c).activeAlert = carriedAlert c := by
  cases c with
  | poll d => cases d <;> rfl
  | ackOk a => rfl
  | triggerOk a => rfl
  | resolveOk h => cases h <;> rfl
  | cancelOk h => cases h <;> rfl
  | locUpdateOk a => rfl

/-- C1: for every sequence of poll ticks and user-triggered mutation
completions applied to the hook state, the active-alert slot after all
responses have been applied equals the alert carried by the most recently
applied server response (last-response-wins). -/
theorem last_response_wins (st : HookState) (cs : List Completion)
    (c : Completion) :
    ((cs ++ [c]).foldl applyCompletion st).activeAlert = carriedAlert c := by
  rw [List.foldl_append, List.foldl_cons, List.foldl_nil]
  exact applyCompletion_activeAlert _ c

/-- C2: on success, `resolveAlert` and `cancelAlert` clear the active slot
and refetch the history; on failure the slot is unchanged; and `cancelAlert`
sends a resolve update carrying `resolved_by: 'System'` and
`notes: 'Cancelled'`. -/
theorem resolve_cancel_clear_slot (st : HookState) (alertId : Nat)
    (resolvedBy notes : String) (hist : Except Unit (Option (List Alert)))
    (e : Unit) :
    ((resolveAlert alertId resolvedBy notes (Except.ok ()) hist st).state.activeAlert = none ∧
      ApiRequest.getAlerts 50 "resolved" ∈
        (resolveAlert alertId resolvedBy notes (Except.ok ()) hist st).requests) ∧
    (resolveAlert alertId resolvedBy notes (Except.error e) hist st).state.activeAlert =
      st.activeAlert ∧
    (∀ a, st.activeAlert = some a →
      (cancelAlert (Except.ok ()) hist st).state.activeAlert = none ∧
      ApiRequest.updateAlert a.id
          { status := some "resolved", resolved_by := some "System",
            notes := some "Cancelled", location := none } ∈
        (cancelAlert (Except.ok ()) hist st).requests ∧
      ApiRequest.getAlerts 50 "resolved" ∈ (cancelAlert (Except.ok ()) hist st).requests ∧
      (cancelAlert (Except.error e) hist st).state.activeAlert = st.activeAlert) := by
  refine ⟨⟨?_, ?_⟩, rfl, ?_⟩
  · cases hist <;> rfl
  · simp [resolveAlert]
  · intro a h
    refine ⟨?_, ?_, ?_, ?_⟩
    · simp only [cancelAlert, h]
      cases hist <;> rfl
    · simp [cancelAlert, h]
    · simp [cancelAlert, h]
    · simp [cancelAlert, h]

/-- Witness for C2 at a concrete state holding an active alert. -/
theorem resolve_cancel_clear_slot_witness :
    (cancelAlert (Except.ok ()) (Except.ok none) exSt).state.activeAlert = none ∧
    ApiRequest.updateAlert exAlert.id
        { status := some "resolved", resolved_by := some "System",
          notes := some "Cancelled", location := none } ∈
      (cancelAlert (Except.ok ()) (Except.ok none) exSt).requests := by
  have h := (resolve_cancel_clear_slot exSt 1 "Caregiver" "" (Except.ok none) ()).2.2
    exAlert rfl
  exact ⟨h.1, h.2.1⟩

/-- C3: when `triggerAlert` is called with a location lacking an address,
geocoding is attempted exactly once; on geocoding failure the alert is still
created with the address absent; on success the returned address is attached
to the payload's location. -/
theorem trigger_geocode_once (o : TriggerOptions) (loc : Location)
    (geo : Except Unit String) (resp : Except Unit Alert) (st : HookState)
    (hloc : o.location = some loc) (haddr : loc.address = none) :
    (triggerAlert geo resp st o).geoCalls = 1 ∧
    (∀ e a, geo = Except.error e → resp = Except.ok a →
      (triggerAlert geo resp st o).state.activeAlert = some a ∧
      ApiRequest.createAlert (buildAlertData o) ∈ (triggerAlert geo resp st o).requests ∧
      (buildAlertData o).location = some loc) ∧
    (∀ addr, geo = Except.ok addr →
      ApiRequest.createAlert
          { buildAlertData o with location := some { loc with address := some addr } } ∈
        (triggerAlert geo resp st o).requests) := by
  have hbl : (buildAlertData o).location = some loc := by simp [buildAlertData, hloc]
  refine ⟨?_, ?_, ?_⟩
  · cases geo <;> cases resp <;>
      simp [triggerAlert, enrichedData, hbl, haddr, jsFalsyStr]
  · rintro e a rfl rfl
    exact ⟨rfl, by simp [triggerAlert, enrichedData, hbl, haddr, jsFalsyStr], hbl⟩
  · rintro addr rfl
    cases resp <;> simp [triggerAlert, enrichedData, hbl, haddr, jsFalsyStr]

/-- Witness for C3: geocoding fails, the alert is still created. -/
theorem trigger_geocode_once_witness :
    (triggerAlert (Except.error ()) (Except.ok exAlert) exIdleSt
      { isTest := none, location := some exLocation, batteryLevel := none,
        connectionStatus := none }).geoCalls = 1 ∧
    (triggerAlert (Except.error ()) (Except.ok exAlert) exIdleSt
      { isTest := none, location := some exLocation, batteryLevel := none,
        connectionStatus := none }).state.activeAlert = some exAlert := by
  have h := trigger_geocode_once
    { isTest := none, location := some exLocation, batteryLevel := none,
      connectionStatus := none }
    exLocation (Except.error ()) (Except.ok exAlert) exIdleSt rfl rfl
  exact ⟨h.1, (h.2.1 () exAlert rfl rfl).1⟩

/-- C4: `acknowledgeAlert` replaces the active slot with the server's
response on success; on failure the prior active alert is unchanged and an
error toast is issued. -/
theorem acknowledge_success_replaces_failure_preserves (st : HookState)
    (alertId : Nat) (a : Alert) (e : Unit) :
    (acknowledgeAlert alertId (Except.ok a) st).state.activeAlert = some a ∧
    (acknowledgeAlert alertId (Except.error e) st).state.activeAlert = st.activeAlert ∧
    Toast.error "Failed to acknowledge alert" ∈
      (acknowledgeAlert alertId (Except.error e) st).state.toasts := by
  refine ⟨rfl, rfl, ?_⟩
  simp [acknowledgeAlert, addToast]

/-- C5: the dirty flag recomputed by the tracking effect is true iff the
working copy differs from the original in a tracked field; a successful save
sets the original copy to the working copy and clears the flag; a failed save
changes neither. -/
theorem profile_dirty_iff_and_save (st : ProfileState) (detail : Option String)
    (h : st.loading = false) :
    ((trackChangesEffect st).hasUnsavedChanges = true ↔
      (st.profile.full_name ≠ st.originalProfile.full_name ∨
        st.profile.email ≠ st.originalProfile.email)) ∧
    (handleSave (Except.ok ()) st).originalProfile = st.profile ∧
    (handleSave (Except.ok ()) st).hasUnsavedChanges = false ∧
    (handleSave (Except.error detail) st).originalProfile = st.originalProfile ∧
    (handleSave (Except.error detail) st).hasUnsavedChanges = st.hasUnsavedChanges := by
  refine ⟨?_, rfl, rfl, rfl, rfl⟩
  simp [trackChangesEffect, h]

/-- Witness for C5 at a concrete non-loading state with an edited name. -/
theorem profile_dirty_iff_and_save_witness :
    (trackChangesEffect exProfileState).hasUnsavedChanges = true ∧
    (handleSave (Except.ok ()) exProfileState).originalProfile = exProfileState.profile := by
  have h := profile_dirty_iff_and_save exProfileState none rfl
  exact ⟨h.1.mpr (Or.inl (by decide)), h.2.1⟩

/-- C6 counterexample: a failing `cancelAlert` (the resolve update was issued
and rejected) emits no toast and its promise does not reject, so neither a
user notification nor a promise rejection reaches the caller. -/
theorem cancel_failure_silent_cex :
    exSt.activeAlert = some exAlert ∧
    (cancelAlert (Except.error ()) (Except.ok none) exSt).requests ≠ [] ∧
    (cancelAlert (Except.error ()) (Except.ok none) exSt).state.toasts = exSt.toasts ∧
    (cancelAlert (Except.error ()) (Except.ok none) exSt).rejects = false := by
  refine ⟨rfl, ?_, rfl, rfl⟩
  simp [cancelAlert, exSt]

/-- C6 amended: `triggerAlert` reports failure via an error toast and its
promise rejects; `acknowledgeAlert`, `resolveAlert` and `clearHistory` report
failure via an error toast but swallow the error; `cancelAlert` and
`updateAlertLocation` neither toast nor reject on failure. -/
theorem per_operation_error_channels (geo : Except Unit String)
    (o : TriggerOptions) (newLoc : Location) (st : HookState) (alertId : Nat)
    (resolvedBy notes : String) (hist : Except Unit (Option (List Alert)))
    (e : Unit) :
    ((triggerAlert geo (Except.error e) st o).rejects = true ∧
      Toast.error "Failed to trigger SOS alert" ∈
        (triggerAlert geo (Except.error e) st o).state.toasts) ∧
    ((acknowledgeAlert alertId (Except.error e) st).rejects = false ∧
      Toast.error "Failed to acknowledge alert" ∈
        (acknowledgeAlert alertId (Except.error e) st).state.toasts) ∧
    ((resolveAlert alertId resolvedBy notes (Except.error e) hist st).rejects = false ∧
      Toast.error "Failed to resolve alert" ∈
        (resolveAlert alertId resolvedBy notes (Except.error e) hist st).state.toasts) ∧
    ((clearHistory (Except.error e) st).rejects = false ∧
      Toast.error "Failed to clear history" ∈
        (clearHistory (Except.error e) st).state.toasts) ∧
    ((cancelAlert (Except.error e) hist st).rejects = false ∧
      (cancelAlert (Except.error e) hist st).state.toasts = st.toasts) ∧
    ((updateAlertLocation newLoc (Except.error e) st).rejects = false ∧
      (updateAlertLocation newLoc (Except.error e) st).state.toasts = st.toasts) := by
  refine ⟨⟨rfl, ?_⟩, ⟨rfl, ?_⟩, ⟨rfl, ?_⟩, ⟨rfl, ?_⟩, ?_, ?_⟩
  · simp [triggerAlert, addToast]
  · simp [acknowledgeAlert, addToast]
  · simp [resolveAlert, addToast]
  · simp [clearHistory, addToast]
  · cases h : st.activeAlert <;> simp [cancelAlert, h]
  · cases h : st.activeAlert <;> simp [updateAlertLocation, h]

/-- C7: unmount clears the polling timer; but a `getActiveAlert` request
resolving after unmount still applies its state update — `fetchActiveAlert`
has no unmounted flag or abort signal, so the late completion overwrites the
active slot of the unmounted component. -/
theorem unmount_timer_cleared_but_late_response_applies :
    (unmountCleanup exMounted).pollTimer = false ∧
    (unmountCleanup exMounted).mounted = false ∧
    (unmountCleanup exMounted).hook.activeAlert = none ∧
    (lateFetchCompletion (some exAlert) (unmountCleanup exMounted)).hook.activeAlert =
      some exAlert := by
  exact ⟨rfl, rfl, rfl, rfl⟩

/-- C8: a submission with mismatched confirmation is rejected before any
network call with "Passwords do not match"; a matching password shorter than
6 characters is rejected before any network call with the minimum-length
message. -/
theorem reset_password_validation (p c t : String) :
    (p ≠ c → handleSubmit p c t = SubmitOutcome.blocked "Passwords do not match") ∧
    (p = c → p.length < 6 →
      handleSubmit p c t = SubmitOutcome.blocked "Password must be at least 6 characters") := by
  constructor
  · intro h
    simp [handleSubmit, h]
  · intro h hl
    subst h
    simp [handleSubmit, hl]

/-- Witness for C8 at the spec's concrete inputs. -/
theorem reset_password_validation_witness :
    handleSubmit "abcdef" "abcdeg" "tok" = SubmitOutcome.blocked "Passwords do not match" ∧
    handleSubmit "abcde" "abcde" "tok" =
      SubmitOutcome.blocked "Password must be at least 6 characters" :=
  ⟨(reset_password_validation "abcdef" "abcdeg" "tok").1 (by decide),
   (reset_password_validation "abcde" "abcde" "tok").2 rfl (by decide)⟩

/-- C9: confidence 0.42 renders as "42.0%" in the warning colour; the
success colour is used exactly when confidence is strictly greater than
0.6. -/
theorem confidence_overlay_display_and_threshold (c : ℚ) :
    confidenceDisplay (42 / 100) = "42.0%" ∧
    confidenceColor (42 / 100) = "text-yellow-400" ∧
    (c ≤ 6 / 10 → confidenceColor c = "text-yellow-400") ∧
    (confidenceColor c = "text-green-400" ↔ c > 6 / 10) := by
  refine ⟨?_, ?_, ?_, ?_⟩
  · norm_num [confidenceDisplay]
    rfl
  · norm_num [confidenceColor]
  · intro h
    simp [confidenceColor, not_lt.mpr h]
  · by_cases hc : c > 6 / 10
    · simp [confidenceColor, hc]
    · simp only [confidenceColor, if_neg hc]
      exact iff_of_false (by decide) hc

/-- Witness for C9 at confidence 0.42. -/
theorem confidence_overlay_witness :
    confidenceDisplay (42 / 100) = "42.0%" ∧
    confidenceColor (42 / 100) = "text-yellow-400" := by
  have h := confidence_overlay_display_and_threshold (42 / 100)
  exact ⟨h.1, h.2.2.1 (by norm_num)⟩

/-- C10: the payload built by `triggerAlert` coerces falsy option values:
`batteryLevel` 0 becomes `battery_level` null, an absent location becomes
null, an absent `isTest` becomes `is_test` false, and an absent
`connectionStatus` becomes `connection_status` "online". -/
theorem trigger_payload_coercions :
    (∀ o : TriggerOptions, o.batteryLevel = some 0 →
      (buildAlertData o).battery_level = none) ∧
    (∀ o : TriggerOptions, o.location = none → (buildAlertData o).location = none) ∧
    (∀ o : TriggerOptions, o.isTest = none → (buildAlertData o).is_test = false) ∧
    (∀ o : TriggerOptions, o.connectionStatus = none →
      (buildAlertData o).connection_status = "online") := by
  refine ⟨?_, ?_, ?_, ?_⟩ <;> intro o h <;>
    simp [buildAlertData, coerceBatteryLevel, coerceConnectionStatus, h]

/-- Witness for C10 at a concrete options value with battery level 0 and all
other fields absent. -/
theorem trigger_payload_coercions_witness :
    (buildAlertData exOpts).battery_level = none ∧
    (buildAlertData exOpts).location = none ∧
    (buildAlertData exOpts).is_test = false ∧
    (buildAlertData exOpts).connection_status = "online" :=
  ⟨trigger_payload_coercions.1 exOpts rfl, trigger_payload_coercions.2.1 exOpts rfl,
   trigger_payload_coercions.2.2.1 exOpts rfl,
   trigger_payload_coercions.2.2.2 exOpts rfl⟩

end MindTrace
